import Mathlib

/-!
Verification of the psn_api_rs repository against its specification.

The session type `PSNInner` and its operations are translated from
src/src/types.rs.  Time (`std::time::Instant`) is modelled as a natural
number of seconds; the two `Instant::now()` reads inside `should_refresh`
become two clock parameters `t1 ≤ t2`.  The fallible network exchanges of
`gen_access_and_refresh` / `gen_access_from_refresh` take the outcome of
the HTTP send-and-parse step (`Except PSNError Tokens`) as a parameter and
thread the session state explicitly; a `.expect`/panic path is modelled by
an `Option` result (`none` = panic).

The generic resource pool (module `crate::psn`, the Pool Core of the spec)
is not among the provided sources, so it is modelled from the spec, §4.1:
see `PoolState`, `PoolStep` and `acquireOnce` below.
-/

/-- Error type of the crate.  Modelled from the spec and from the uses in
src/src/types.rs: the pool module defining `PSNError` is not among the
provided sources; types.rs pins the constructors `AuthenticationFail`,
`FromPSN` (message string) and `FromStd`, and network / payload parsing
failures are carried through the question-mark conversions. -/
inductive PSNError where
  | AuthenticationFail : PSNError
  | NetWork : PSNError
  | PayLoad : PSNError
  | FromPSN (msg : String) : PSNError
  | FromStd (msg : String) : PSNError
deriving DecidableEq

/-- Token response body, from src/src/private_model.rs (struct Tokens). -/
structure Tokens where
  access_token : Option String
  refresh_token : Option String
deriving DecidableEq

/-- The session record, from src/src/types.rs (struct PSNInner).
`last_refresh_at : Option Instant` becomes an optional timestamp in
seconds. -/
structure PSNInner where
  region : String
  self_online_id : String
  access_token : Option String
  npsso : Option String
  refresh_token : Option String
  last_refresh_at : Option Nat
  language : String
deriving DecidableEq

/-- Default::default() for PSNInner (types.rs lines 24-36). -/
def PSNInner.new : PSNInner :=
  { region := "hk"
    self_online_id := ""
    access_token := none
    npsso := none
    refresh_token := none
    last_refresh_at := none
    language := "en" }

/-- PSNInner::add_refresh_token (types.rs lines 43-48): store the token
only when the argument string is non-empty. -/
def PSNInner.add_refresh_token (s : PSNInner) (refresh_token : String) : PSNInner :=
  if refresh_token.isEmpty then s else { s with refresh_token := some refresh_token }

/-- PSNInner::add_npsso (types.rs lines 54-59). -/
def PSNInner.add_npsso (s : PSNInner) (npsso : String) : PSNInner :=
  if npsso.isEmpty then s else { s with npsso := some npsso }

/-- PSNInner::set_access_token (types.rs lines 80-83). -/
def PSNInner.set_access_token (s : PSNInner) (access_token : Option String) : PSNInner :=
  { s with access_token := access_token }

/-- PSNInner::set_refresh_token (types.rs lines 85-88). -/
def PSNInner.set_refresh_token (s : PSNInner) (refresh_token : Option String) : PSNInner :=
  { s with refresh_token := refresh_token }

/-- PSNInner::set_refresh (types.rs lines 90-93): set refresh time to now. -/
def PSNInner.set_refresh (s : PSNInner) (now : Nat) : PSNInner :=
  { s with last_refresh_at := some now }

/-- PSNInner::should_refresh (types.rs lines 96-104).  The Rust body reads
the clock twice: `t1` is the first `Instant::now()` (compared with the
stored instant), `t2` the second (used for `duration_since`); the
threshold is `Duration::from_secs(3000)` with a strict comparison. -/
def PSNInner.should_refresh (t1 t2 : Nat) (s : PSNInner) : Bool :=
  match s.last_refresh_at with
  | some i => if i < t1 then decide (3000 < t2 - i) else false
  | none => false

/-- PSNRequest::gen_access_and_refresh for PSNInner (types.rs lines
139-169).  `resp` is the combined outcome of the POST to
OAUTH_TOKEN_ENTRY and the JSON parse of its body; `now` is the clock at
`set_refresh`.  Returns the resulting session state together with the
error, if any. -/
def PSNInner.gen_access_and_refresh (s : PSNInner) (resp : Except PSNError Tokens)
    (now : Nat) : PSNInner × Option PSNError :=
  match s.npsso with
  | none => (s, some PSNError.AuthenticationFail)
  | some _ =>
    match resp with
    | Except.error e => (s, some e)
    | Except.ok tokens =>
      if tokens.access_token.isNone || tokens.refresh_token.isNone then
        (s, some PSNError.AuthenticationFail)
      else
        (((s.set_access_token tokens.access_token).set_refresh_token
            tokens.refresh_token).set_refresh now, none)

/-- PSNRequest::gen_access_from_refresh for PSNInner (types.rs lines
171-196).  Building the request body calls `EncodeUrl::refresh_token`,
which panics (`.expect`) when `refresh_token` is `None`; that path is the
`none` result.  Otherwise `resp` is the outcome of the POST and JSON
parse, and on success only the access token and the refresh timestamp are
written. -/
def PSNInner.gen_access_from_refresh (s : PSNInner) (resp : Except PSNError Tokens)
    (now : Nat) : Option (PSNInner × Option PSNError) :=
  match s.refresh_token with
  | none => none
  | some _ =>
    match resp with
    | Except.error e => some (s, some e)
    | Except.ok tokens =>
      if tokens.access_token.isNone then
        some (s, some PSNError.AuthenticationFail)
      else
        some ((s.set_access_token tokens.access_token).set_refresh now, none)

/-- PSN error response body, from src/src/private_model.rs
(struct PSNResponseErrorInner). -/
structure PSNResponseErrorInner where
  code : Nat
  message : String
deriving DecidableEq

/-- PSN error response wrapper, from src/src/private_model.rs
(struct PSNResponseError). -/
structure PSNResponseError where
  error : PSNResponseErrorInner
deriving DecidableEq

/-- Outcome of one HTTP exchange as observed by the response-handling
code in types.rs: the status code, the result of parsing the body as a
`PSNResponseError` (used on non-success statuses), and the result of
parsing the body as the payload type `T`. -/
structure HttpResponse (T : Type) where
  status : Nat
  errorBody : Except PSNError PSNResponseError
  payload : Except PSNError T

/-- PSNRequest::get_by_url_encode for PSNInner (types.rs lines 198-229).
`sendResult` is the outcome of `req.send()`; a status other than 200
turns the parsed error body into `PSNError::FromPSN`, a 200 status
returns the parsed payload. -/
def PSNInner.get_by_url_encode {T : Type} (_s : PSNInner)
    (sendResult : Except PSNError (HttpResponse T)) : Except PSNError T :=
  match sendResult with
  | Except.error e => Except.error e
  | Except.ok res =>
    if res.status ≠ 200 then
      match res.errorBody with
      | Except.error e => Except.error e
      | Except.ok eb => Except.error (PSNError.FromPSN eb.error.message)
    else res.payload

/-- PSNRequest::del_by_url_encode for PSNInner (types.rs lines 231-256).
Building the request panics (`.expect`) when `access_token` is `None`
(the `none` result); a status other than 204 turns the parsed error body
into `PSNError::FromPSN`, a 204 status returns unit. -/
def PSNInner.del_by_url_encode (s : PSNInner)
    (sendResult : Except PSNError (HttpResponse Unit)) :
    Option (Except PSNError Unit) :=
  match s.access_token with
  | none => none
  | some _ =>
    some (match sendResult with
      | Except.error e => Except.error e
      | Except.ok res =>
        if res.status ≠ 204 then
          match res.errorBody with
          | Except.error e => Except.error e
          | Except.ok eb => Except.error (PSNError.FromPSN eb.error.message)
        else Except.ok ())

/-- A sample authenticated session used by witness theorems. -/
def innerSample : PSNInner :=
  { region := "hk"
    self_online_id := ""
    access_token := some "acc0"
    npsso := some "npsso0"
    refresh_token := some "ref0"
    last_refresh_at := some 0
    language := "en" }

/-- Modelled from the spec: the Pool Core state (§3 and §4.1).  The pool
implementation (module `crate::psn`, referenced from types.rs) is not
among the provided sources.  `idle` is the LIFO stack of unleased
instance ids (head = most recently returned), `leased` the ids currently
checked out, `staging` the descriptors not yet connected (the staging
list of sessions, resp. the backup queue of proxies), `maxSize` the hard
ceiling, `alwaysCheck` the validate-on-checkout flag, `paused` the
administrative halt flag. -/
structure PoolState where
  idle : List Nat
  leased : List Nat
  staging : List Nat
  maxSize : Nat
  alwaysCheck : Bool
  paused : Bool
deriving DecidableEq

/-- Count of existing resources, leased or idle (spec §3, `total`). -/
def PoolState.total (s : PoolState) : Nat :=
  s.idle.length + s.leased.length

/-- Every instance id the pool knows about, as a multiset. -/
def PoolState.allInstances (s : PoolState) : Multiset Nat :=
  (s.idle : Multiset Nat) + (s.leased : Multiset Nat) + (s.staging : Multiset Nat)

/-- Modelled from the spec: the atomic critical-section transitions of
Pool Core (§4.1 and §5).  Each constructor is one bookkeeping step of
acquire / release / resize / pause / resume / clear; interleavings of
concurrent callers are sequences of these steps.  The index `b`
distinguishes the full system (`true`) from the system without arbitrary
resizes (`false`): `resize` (spec: updates `max_size` without evicting)
needs `b = true`, while `resizeGe`, a resize that is not below the
current population, is always available. -/
inductive PoolStep : Bool → PoolState → PoolState → Prop where
  | popIdle (b : Bool) (s : PoolState) (x : Nat) (rest : List Nat) :
      s.paused = false → s.idle = x :: rest →
      PoolStep b s { s with idle := rest, leased := x :: s.leased }
  | connect (b : Bool) (s : PoolState) (d : Nat) (rest : List Nat) :
      s.paused = false → s.total < s.maxSize → s.staging = d :: rest →
      PoolStep b s { s with staging := rest, leased := d :: s.leased }
  | releaseOk (b : Bool) (s : PoolState) (x : Nat) :
      x ∈ s.leased →
      PoolStep b s { s with leased := s.leased.erase x, idle := x :: s.idle }
  | releaseDiscard (b : Bool) (s : PoolState) (x : Nat) :
      x ∈ s.leased →
      PoolStep b s { s with leased := s.leased.erase x }
  | resize (s : PoolState) (n : Nat) :
      PoolStep true s { s with maxSize := n }
  | resizeGe (b : Bool) (s : PoolState) (n : Nat) :
      s.total ≤ n →
      PoolStep b s { s with maxSize := n }
  | clearIdle (b : Bool) (s : PoolState) :
      PoolStep b s { s with idle := [] }
  | pause (b : Bool) (s : PoolState) :
      PoolStep b s { s with paused := true }
  | resume (b : Bool) (s : PoolState) :
      PoolStep b s { s with paused := false }

/-- Reachability of one pool state from another by pool steps. -/
def PoolReach (b : Bool) : PoolState → PoolState → Prop :=
  Relation.ReflTransGen (PoolStep b)

/-- Modelled from the spec: result of one pass over the acquire decision
tree of §4.1, run inside the critical section. -/
inductive AcquireOutcome where
  | granted (id : Nat) (s : PoolState) : AcquireOutcome
  | exhausted (s : PoolState) : AcquireOutcome
  | mustWait (s : PoolState) : AcquireOutcome
deriving DecidableEq

/-- Modelled from the spec: the construction branch of acquire (§4.1):
if `total < max_size`, connect the next staged descriptor; with an empty
staging queue construction fails (Exhaustion); at the ceiling the caller
must wait. -/
def connectPath (s : PoolState) : AcquireOutcome :=
  if s.total < s.maxSize then
    match s.staging with
    | d :: rest =>
      AcquireOutcome.granted d { s with staging := rest, leased := d :: s.leased }
    | [] => AcquireOutcome.exhausted s
  else AcquireOutcome.mustWait s

/-- Modelled from the spec: one pass of the acquire decision tree
(§4.1): while paused always suspend; else pop the most recently returned
idle instance, validating it when `always_check` is set — a failed
validation discards it and falls through to the construction path;
with no idle instance go to the construction path directly. -/
def acquireOnce (s : PoolState) (validateOk : Nat → Bool) : AcquireOutcome :=
  if s.paused then AcquireOutcome.mustWait s
  else
    match s.idle with
    | x :: rest =>
      if s.alwaysCheck && !(validateOk x) then
        connectPath { s with idle := rest }
      else
        AcquireOutcome.granted x { s with idle := rest, leased := x :: s.leased }
    | [] => connectPath s

/-- Modelled from the spec: the two caller-visible error kinds of
acquire (§7). -/
inductive AcquireError where
  | Exhaustion : AcquireError
  | Timeout : AcquireError
deriving DecidableEq

/-- Modelled from the spec: the overall result of one `acquire` call in
the run where no other task releases a resource within `wait_timeout`
(§4.1, §7): a `mustWait` pass then times out, so the waiter gets the
Timeout error; a failed construction surfaces Exhaustion. -/
def acquireNoRelease (s : PoolState) (validateOk : Nat → Bool) :
    Except AcquireError (Nat × PoolState) :=
  match acquireOnce s validateOk with
  | AcquireOutcome.granted x s1 => Except.ok (x, s1)
  | AcquireOutcome.exhausted _ => Except.error AcquireError.Exhaustion
  | AcquireOutcome.mustWait _ => Except.error AcquireError.Timeout

/-- C1: once refresh_token is populated it is never cleared back to None
by add_refresh_token, gen_access_and_refresh or gen_access_from_refresh:
whenever one of these operations completes (successfully or with an
error), refresh_token is still Some, at most replaced by the token from
the refresh response. -/
theorem refresh_token_never_cleared (s : PSNInner) (h : s.refresh_token.isSome = true) :
    (∀ t : String, (s.add_refresh_token t).refresh_token.isSome = true) ∧
    (∀ resp now, ((s.gen_access_and_refresh resp now).1).refresh_token.isSome = true) ∧
    (∀ resp now s' e, s.gen_access_from_refresh resp now = some (s', e) →
      s'.refresh_token.isSome = true) := by
  refine ⟨?_, ?_, ?_⟩
  · intro t
    by_cases ht : t.isEmpty <;> simp [PSNInner.add_refresh_token, ht, h]
  · intro resp now
    rcases hn : s.npsso with _ | v
    · simp [PSNInner.gen_access_and_refresh, hn, h]
    · rcases resp with e | tokens
      · simp [PSNInner.gen_access_and_refresh, hn, h]
      · rcases hta : tokens.access_token with _ | a
        · simp [PSNInner.gen_access_and_refresh, hn, hta, h]
        · rcases htr : tokens.refresh_token with _ | r
          · simp [PSNInner.gen_access_and_refresh, hn, hta, htr, h]
          · simp [PSNInner.gen_access_and_refresh, hn, hta, htr,
              PSNInner.set_access_token, PSNInner.set_refresh_token, PSNInner.set_refresh]
  · intro resp now s' e hcall
    rcases hrt : s.refresh_token with _ | r
    · rw [hrt] at h; simp at h
    · rcases resp with er | tokens
      · simp [PSNInner.gen_access_from_refresh, hrt] at hcall
        rcases hcall with ⟨h1, h2⟩
        rw [← h1, hrt]; rfl
      · rcases hta : tokens.access_token with _ | a
        · simp [PSNInner.gen_access_from_refresh, hrt, hta] at hcall
          rcases hcall with ⟨h1, h2⟩
          rw [← h1, hrt]; rfl
        · simp [PSNInner.gen_access_from_refresh, hrt, hta,
            PSNInner.set_access_token, PSNInner.set_refresh] at hcall
          rcases hcall with ⟨h1, h2⟩
          rw [← h1]
          simp [hrt]

/-- Witness for C1 at a concrete authenticated session. -/
theorem refresh_token_never_cleared_witness :
    ((innerSample.gen_access_and_refresh (Except.error PSNError.NetWork) 7).1).refresh_token.isSome = true :=
  (refresh_token_never_cleared innerSample rfl).2.1 (Except.error PSNError.NetWork) 7

/-- C2: for a session whose last_refresh_at is Some i with i in the past,
should_refresh returns true exactly when the elapsed time since i exceeds
3000 seconds. -/
theorem should_refresh_iff_stale (s : PSNInner) (i t1 t2 : Nat)
    (hl : s.last_refresh_at = some i) (h1 : i < t1) (_h2 : t1 ≤ t2) :
    (PSNInner.should_refresh t1 t2 s = true ↔ 3000 < t2 - i) := by
  simp [PSNInner.should_refresh, hl, h1]

/-- Witness for C2: a session last refreshed at time 0, checked at time
4000, is reported stale. -/
theorem should_refresh_iff_stale_witness :
    (PSNInner.should_refresh 1 4000 innerSample = true ↔ 3000 < 4000 - 0) :=
  should_refresh_iff_stale innerSample 0 1 4000 rfl (by decide) (by decide)

/-- C3: a successful refresh exchange replaces the access token in place
with the token carried in the response and sets last_refresh_at to the
time of the refresh; a response with no access token fails with
AuthenticationFail, which is returned to the caller. -/
theorem gen_access_from_refresh_updates (s : PSNInner) (tokens : Tokens) (now : Nat)
    (hr : s.refresh_token.isSome = true) :
    (∀ a, tokens.access_token = some a →
      s.gen_access_from_refresh (Except.ok tokens) now =
        some ({ s with access_token := some a, last_refresh_at := some now }, none)) ∧
    (tokens.access_token = none →
      s.gen_access_from_refresh (Except.ok tokens) now =
        some (s, some PSNError.AuthenticationFail)) := by
  rcases hrt : s.refresh_token with _ | r
  · rw [hrt] at hr; simp at hr
  · constructor
    · intro a ha
      simp [PSNInner.gen_access_from_refresh, hrt, ha,
        PSNInner.set_access_token, PSNInner.set_refresh]
    · intro ha
      simp [PSNInner.gen_access_from_refresh, hrt, ha]

/-- Witness for C3: a concrete refresh response carrying a new access
token updates the sample session in place. -/
theorem gen_access_from_refresh_updates_witness :
    innerSample.gen_access_from_refresh (Except.ok ⟨some "acc1", none⟩) 42 =
      some ({ innerSample with access_token := some "acc1", last_refresh_at := some 42 }, none) :=
  (gen_access_from_refresh_updates innerSample ⟨some "acc1", none⟩ 42 rfl).1 "acc1" rfl

/-- C4: a GET whose response status is not 200 returns the FromPSN error
carrying the message parsed from the error body unchanged, and a 200
status returns the parsed payload; a DELETE whose status is not 204
returns the same FromPSN error, and a 204 status returns unit. -/
theorem remote_failure_surfaced {T : Type} (s : PSNInner) (res : HttpResponse T)
    (resDel : HttpResponse Unit) (eb : PSNResponseError) (p : T) (tok : String)
    (htok : s.access_token = some tok) :
    (res.status ≠ 200 → res.errorBody = Except.ok eb →
      s.get_by_url_encode (Except.ok res) =
        Except.error (PSNError.FromPSN eb.error.message)) ∧
    (res.status = 200 → res.payload = Except.ok p →
      s.get_by_url_encode (Except.ok res) = Except.ok p) ∧
    (resDel.status ≠ 204 → resDel.errorBody = Except.ok eb →
      s.del_by_url_encode (Except.ok resDel) =
        some (Except.error (PSNError.FromPSN eb.error.message))) ∧
    (resDel.status = 204 →
      s.del_by_url_encode (Except.ok resDel) = some (Except.ok ())) := by
  refine ⟨?_, ?_, ?_, ?_⟩
  · intro h1 h2
    simp [PSNInner.get_by_url_encode, h1, h2]
  · intro h1 h2
    simp [PSNInner.get_by_url_encode, h1, h2]
  · intro h1 h2
    simp [PSNInner.del_by_url_encode, htok, h1, h2]
  · intro h1
    simp [PSNInner.del_by_url_encode, htok, h1]

/-- A concrete non-success GET response used by the C4 witness. -/
def resNotFound : HttpResponse Nat :=
  { status := 404
    errorBody := Except.ok { error := { code := 2105356, message := "not found" } }
    payload := Except.error PSNError.PayLoad }

/-- A concrete successful DELETE response used by the C4 witness. -/
def resDeleted : HttpResponse Unit :=
  { status := 204
    errorBody := Except.error PSNError.PayLoad
    payload := Except.ok () }

/-- Witness for C4: the 404 body message is surfaced unchanged. -/
theorem remote_failure_surfaced_witness :
    PSNInner.get_by_url_encode innerSample (Except.ok resNotFound) =
      Except.error (PSNError.FromPSN "not found") :=
  (remote_failure_surfaced innerSample resNotFound resDeleted
    { error := { code := 2105356, message := "not found" } } 0 "acc0" rfl).1
    (by decide) rfl

/-- C8: if gen_access_and_refresh or gen_access_from_refresh returns an
error, the session is left exactly as it was. -/
theorem auth_error_leaves_state (s : PSNInner) (resp : Except PSNError Tokens) (now : Nat) :
    (∀ e, (s.gen_access_and_refresh resp now).2 = some e →
      (s.gen_access_and_refresh resp now).1 = s) ∧
    (∀ s' e, s.gen_access_from_refresh resp now = some (s', some e) → s' = s) := by
  constructor
  · intro e he
    rcases hn : s.npsso with _ | v
    · simp [PSNInner.gen_access_and_refresh, hn]
    · rcases resp with er | tokens
      · simp [PSNInner.gen_access_and_refresh, hn]
      · by_cases hc : (tokens.access_token.isNone || tokens.refresh_token.isNone) = true
        · simp [PSNInner.gen_access_and_refresh, hn, hc]
        · simp [PSNInner.gen_access_and_refresh, hn, hc] at he
  · intro s' e hcall
    rcases hrt : s.refresh_token with _ | r
    · simp [PSNInner.gen_access_from_refresh, hrt] at hcall
    · rcases resp with er | tokens
      · simp [PSNInner.gen_access_from_refresh, hrt] at hcall
        exact hcall.1.symm
      · by_cases hta : tokens.access_token.isNone = true
        · simp [PSNInner.gen_access_from_refresh, hrt, hta] at hcall
          exact hcall.1.symm
        · simp [PSNInner.gen_access_from_refresh, hrt, hta] at hcall

/-- Witness for C8: a network failure during the first authentication
leaves the sample session untouched. -/
theorem auth_error_leaves_state_witness :
    (innerSample.gen_access_and_refresh (Except.error PSNError.NetWork) 7).1 = innerSample :=
  (auth_error_leaves_state innerSample (Except.error PSNError.NetWork) 7).1
    PSNError.NetWork rfl

/-- C9: a session whose last_refresh_at is None is never reported stale
by should_refresh, at any pair of clock readings. -/
theorem fresh_session_not_stale (s : PSNInner) (t1 t2 : Nat)
    (h : s.last_refresh_at = none) :
    PSNInner.should_refresh t1 t2 s = false := by
  simp [PSNInner.should_refresh, h]

/-- Witness for C9: a brand-new session is not stale even at a huge
clock value. -/
theorem fresh_session_not_stale_witness :
    PSNInner.should_refresh 0 999999999 PSNInner.new = false :=
  fresh_session_not_stale PSNInner.new 0 999999999 rfl

/-- C10: add_refresh_token and add_npsso ignore the empty string and
store Some of a non-empty string, leaving every other field of the
session unchanged. -/
theorem add_refresh_token_npsso_empty (s : PSNInner) (t : String) :
    (t.isEmpty = true → s.add_refresh_token t = s ∧ s.add_npsso t = s) ∧
    (t.isEmpty = false →
      s.add_refresh_token t = { s with refresh_token := some t } ∧
      s.add_npsso t = { s with npsso := some t }) := by
  constructor <;> intro ht <;>
    simp [PSNInner.add_refresh_token, PSNInner.add_npsso, ht]

/-- Witness for C10: adding the token "tok" to a fresh session sets only
the refresh_token, resp. npsso, field. -/
theorem add_refresh_token_npsso_empty_witness :
    PSNInner.add_refresh_token PSNInner.new "tok" =
      { PSNInner.new with refresh_token := some "tok" } ∧
    PSNInner.add_npsso PSNInner.new "tok" =
      { PSNInner.new with npsso := some "tok" } :=
  (add_refresh_token_npsso_empty PSNInner.new "tok").2 (by decide)

/-- One pool step other than an arbitrary resize keeps the existing
population within the current ceiling. -/
theorem poolStep_total_le (s t : PoolState) (hs : PoolStep false s t)
    (h : s.total ≤ s.maxSize) : t.total ≤ t.maxSize := by
  cases hs with
  | popIdle b s x rest hp hi =>
    simp only [PoolState.total, hi, List.length_cons] at h ⊢
    omega
  | connect b s d rest hp hlt hst =>
    simp only [PoolState.total, List.length_cons] at hlt ⊢
    omega
  | releaseOk b s x hx =>
    have h1 : (s.leased.erase x).length = s.leased.length - 1 :=
      List.length_erase_of_mem hx
    have h2 : 0 < s.leased.length := List.length_pos.mpr (List.ne_nil_of_mem hx)
    simp only [PoolState.total, List.length_cons, h1] at h ⊢
    omega
  | releaseDiscard b s x hx =>
    have h1 : (s.leased.erase x).length ≤ s.leased.length :=
      List.length_erase_le x s.leased
    simp only [PoolState.total] at h ⊢
    omega
  | resizeGe b s n hn =>
    simpa [PoolState.total] using hn
  | clearIdle b s =>
    simp only [PoolState.total, List.length_nil] at h ⊢
    omega
  | pause b s => exact h
  | resume b s => exact h

/-- C5 (amended): for every pool, every state reachable by the
acquire / release / clear bookkeeping steps — with resizes only to a
ceiling at least the current population, i.e. without the arbitrary
resize, which by the spec does not evict and so can leave the population
above a lowered ceiling — satisfies leased + idle ≤ max_size, provided
the initial state does. -/
theorem pool_ceiling_invariant (init s : PoolState)
    (hinit : init.idle.length + init.leased.length ≤ init.maxSize)
    (hreach : PoolReach false init s) :
    s.idle.length + s.leased.length ≤ s.maxSize := by
  have key : s.total ≤ s.maxSize := by
    induction hreach with
    | refl => exact hinit
    | tail hab hbc ih => exact poolStep_total_le _ _ hbc ih
  simpa [PoolState.total] using key

/-- Initial pool used by the C5 amended-claim witness: one idle, one
leased instance under a ceiling of three. -/
def poolTwo : PoolState :=
  { idle := [1], leased := [2], staging := [], maxSize := 3
    alwaysCheck := true, paused := false }

/-- Witness for C5 (amended) at a concrete pool state. -/
theorem pool_ceiling_invariant_witness :
    poolTwo.idle.length + poolTwo.leased.length ≤ poolTwo.maxSize :=
  pool_ceiling_invariant poolTwo poolTwo (by decide) Relation.ReflTransGen.refl

/-- Initial pool for the C5 counterexample: empty, two staged
descriptors, ceiling two. -/
def poolInit5 : PoolState :=
  { idle := [], leased := [], staging := [10, 11], maxSize := 2
    alwaysCheck := true, paused := false }

/-- State reached from `poolInit5` by two successful constructions
followed by `resize(1)`. -/
def poolOver5 : PoolState :=
  { idle := [], leased := [11, 10], staging := [], maxSize := 1
    alwaysCheck := true, paused := false }

/-- Counterexample to C5 as stated: an interleaving that includes
`resize` can leave leased + idle above max_size, because resize does not
evict resources above the new ceiling.  From an empty pool with ceiling
2, two acquires construct both staged instances, then resize(1) lowers
the ceiling below the live population. -/
theorem pool_ceiling_counterexample :
    PoolReach true poolInit5 poolOver5 ∧
    poolOver5.maxSize < poolOver5.idle.length + poolOver5.leased.length := by
  constructor
  · have s1 : PoolStep true poolInit5
        { poolInit5 with staging := [11], leased := [10] } :=
      PoolStep.connect true poolInit5 10 [11] rfl (by decide) rfl
    have s2 : PoolStep true { poolInit5 with staging := [11], leased := [10] }
        { poolInit5 with staging := [], leased := [11, 10] } :=
      PoolStep.connect true { poolInit5 with staging := [11], leased := [10] }
        11 [] rfl (by decide) rfl
    have s3 : PoolStep true { poolInit5 with staging := [], leased := [11, 10] }
        poolOver5 :=
      PoolStep.resize { poolInit5 with staging := [], leased := [11, 10] } 1
    exact Relation.ReflTransGen.tail
      (Relation.ReflTransGen.tail (Relation.ReflTransGen.tail
        Relation.ReflTransGen.refl s1) s2) s3
  · decide

/-- C6 (amended): acquire distinguishes its two error kinds by cause.
On a saturated, all-leased, unpaused pool where no resource is released
within wait_timeout the result is Timeout; on an unpaused pool with no
idle instance, an empty staging queue AND spare capacity
(total < max_size, so the construction path is reached and fails) the
result is Exhaustion, immediately; an idle instance failing validation
is never surfaced: when the construction fallback succeeds the caller
gets a lease. -/
theorem acquire_error_kinds (s : PoolState) (v : Nat → Bool)
    (hp : s.paused = false) :
    (s.idle = [] → s.leased.length = s.maxSize →
      acquireNoRelease s v = Except.error AcquireError.Timeout) ∧
    (s.idle = [] → s.staging = [] → s.total < s.maxSize →
      acquireNoRelease s v = Except.error AcquireError.Exhaustion) ∧
    (∀ x rest d ds, s.idle = x :: rest → s.alwaysCheck = true → v x = false →
      s.staging = d :: ds → rest.length + s.leased.length < s.maxSize →
      acquireNoRelease s v =
        Except.ok (d, { s with idle := rest, staging := ds, leased := d :: s.leased })) := by
  refine ⟨?_, ?_, ?_⟩
  · intro hi hl
    simp [acquireNoRelease, acquireOnce, connectPath, hp, hi, PoolState.total, hl]
  · intro hi hst hlt
    simp [acquireNoRelease, acquireOnce, connectPath, hp, hi, hst, hlt]
  · intro x rest d ds hi hac hv hst hlt
    simp [acquireNoRelease, acquireOnce, connectPath, hp, hi, hac, hv, hst,
      PoolState.total, hlt]

/-- A saturated, all-leased pool with an empty staging queue, used by
the C6 witness and counterexample. -/
def poolSaturated : PoolState :=
  { idle := [], leased := [7], staging := [], maxSize := 1
    alwaysCheck := true, paused := false }

/-- Witness for C6 (amended): on the saturated all-leased pool the
acquire that sees no release times out. -/
theorem acquire_error_kinds_witness :
    acquireNoRelease poolSaturated (fun _ => true) = Except.error AcquireError.Timeout :=
  (acquire_error_kinds poolSaturated (fun _ => true) rfl).1 rfl rfl

/-- Counterexample to C6 as stated: its second part claims that a pool
with no idle instance and an empty staging queue yields Exhaustion
immediately, with no condition on capacity.  The saturated all-leased
pool has no idle instance and an empty staging queue, yet acquire never
reaches the construction path — it waits and then times out, so the
result is Timeout, not Exhaustion. -/
theorem acquire_error_kinds_counterexample :
    poolSaturated.idle = [] ∧ poolSaturated.staging = [] ∧
    acquireNoRelease poolSaturated (fun _ => true) = Except.error AcquireError.Timeout ∧
    acquireNoRelease poolSaturated (fun _ => true) ≠ Except.error AcquireError.Exhaustion := by
  refine ⟨rfl, rfl, rfl, ?_⟩
  intro h
  rw [show acquireNoRelease poolSaturated (fun _ => true) =
    Except.error AcquireError.Timeout from rfl] at h
  simp at h

/-- Every pool step, resize included, only moves instance ids between
the idle, leased and staging collections or drops them: the multiset of
all known ids never grows and never duplicates an id. -/
theorem poolStep_allInstances_le (s t : PoolState) (hs : PoolStep true s t) :
    t.allInstances ≤ s.allInstances := by
  cases hs with
  | popIdle b s x rest hp hi =>
    refine le_of_eq ?_
    simp [PoolState.allInstances, hi, Multiset.cons_add, Multiset.add_cons]
  | connect b s d rest hp hlt hst =>
    refine le_of_eq ?_
    simp [PoolState.allInstances, hst, Multiset.cons_add, Multiset.add_cons]
    exact List.Perm.append_left _ List.perm_middle.symm
  | releaseOk b s x hx =>
    refine le_of_eq ?_
    have hx' : x ∈ (s.leased : Multiset Nat) := by simpa using hx
    calc ((x :: s.idle : List Nat) : Multiset Nat) +
          ↑(s.leased.erase x) + ↑s.staging
        = ↑s.idle + (x ::ₘ Multiset.erase ↑s.leased x) + ↑s.staging := by
          simp [Multiset.coe_erase, Multiset.cons_add, Multiset.add_cons]
          exact List.perm_middle.symm
      _ = ↑s.idle + ↑s.leased + ↑s.staging := by
          rw [Multiset.cons_erase hx']
  | releaseDiscard b s x hx =>
    have h1 : Multiset.erase (↑s.leased) x ≤ (s.leased : Multiset Nat) :=
      Multiset.erase_le x _
    calc (↑s.idle : Multiset Nat) + ↑(s.leased.erase x) + ↑s.staging
        = ↑s.idle + Multiset.erase ↑s.leased x + ↑s.staging := by
          simp [Multiset.coe_erase]
      _ ≤ ↑s.idle + ↑s.leased + ↑s.staging :=
          add_le_add (add_le_add le_rfl h1) le_rfl
  | resize s n => exact le_rfl
  | resizeGe b s n hn => exact le_rfl
  | clearIdle b s =>
    have h1 : (0 : Multiset Nat) ≤ ↑s.idle := Multiset.zero_le _
    calc ((([] : List Nat) : Multiset Nat)) + ↑s.leased + ↑s.staging
        = 0 + ↑s.leased + ↑s.staging := by simp
      _ ≤ ↑s.idle + ↑s.leased + ↑s.staging :=
          add_le_add (add_le_add h1 le_rfl) le_rfl
  | pause b s => exact le_rfl
  | resume b s => exact le_rfl

/-- C7: in every state reachable from a pool whose instance ids are all
distinct, under any interleaving of the pool steps, no instance is ever
held by two leases and no leased instance sits in the idle set — the
leaseholder's ownership is exclusive for the lifetime of the lease. -/
theorem lease_mutual_exclusion (init s : PoolState)
    (hinit : init.allInstances.Nodup) (hreach : PoolReach true init s) :
    s.leased.Nodup ∧ s.leased.Disjoint s.idle := by
  have hall : s.allInstances.Nodup := by
    induction hreach with
    | refl => exact hinit
    | tail hab hbc ih => exact Multiset.nodup_of_le (poolStep_allInstances_le _ _ hbc) ih
  rw [PoolState.allInstances, Multiset.nodup_add, Multiset.nodup_add] at hall
  rcases hall with ⟨⟨hidle, hleased, hdisj⟩, hstaging, hdisj2⟩
  refine ⟨by simpa using hleased, ?_⟩
  intro a ha ha2
  exact (Multiset.coe_disjoint _ _).mp hdisj ha2 ha

/-- A concrete pool with all-distinct instance ids, used by the C7
witness. -/
def poolDistinct : PoolState :=
  { idle := [1, 2], leased := [3], staging := [4, 5], maxSize := 3
    alwaysCheck := true, paused := false }

/-- Witness for C7 at a concrete pool with distinct instance ids. -/
theorem lease_mutual_exclusion_witness :
    poolDistinct.leased.Nodup ∧ poolDistinct.leased.Disjoint poolDistinct.idle :=
  lease_mutual_exclusion poolDistinct poolDistinct (by decide) Relation.ReflTransGen.refl
